import Mathlib

/-! Shallow embedding of the SalsaG trust-pipeline core: the trust
verification engine of `salsag-cli/salsag/core.py` and the Rekor
transparency-log client of `salsag-cli/salsag/rekor_client.py`.
External collaborators (the DynamoDB ledger table, the S3 blob store,
`hashlib`, HTTP fetches of Rekor entries and the cosign subprocesses)
are modelled as explicit environment functions; all decision logic is
translated directly from the source. -/

/-- Python truthiness of an optional string (`item.get(...)` result):
`None` and the empty string are falsy. -/
def pyTruthyStr : Option String → Bool
  | none => false
  | some s => !s.isEmpty

/-- Python truthiness of an optional digest value (modelled as a list of
characters): `None` and the empty string are falsy. -/
def optListTruthy : Option (List Char) → Bool
  | none => false
  | some l => !l.isEmpty

/-- Python `str.isdigit` for the identifier-shape dispatch of
`rekor_client.py` line 78: non-empty and all digits. -/
def pyIsdigit (s : String) : Bool := !s.isEmpty && s.data.all Char.isDigit

/-- The algorithm tag "sha256:" that digest strings may carry. -/
def sha256Tag : List Char := "sha256:".data

/-- Digest normalization used at core.py lines 394-396 and
rekor_client.py lines 54-56 and 104-106: strip a leading "sha256:"
tag (`d[7:]`) when present, otherwise leave the string unchanged. -/
def normalizeDigest (d : List Char) : List Char :=
  if sha256Tag.isPrefixOf d then d.drop 7 else d

/-- Character class of `hexdigest()` output: a decimal digit or a
lowercase letter between 'a' and 'f'. -/
def isHexChar (c : Char) : Bool := c.isDigit || ('a' ≤ c && c ≤ 'f')

/-- Digest strings produced by `hashlib.sha256(...).hexdigest()` consist
of lowercase hexadecimal digit characters only. -/
def IsHexString (d : List Char) : Prop := ∀ c ∈ d, isHexChar c = true

/-- Parsed content of a Rekor entry's base64-encoded `body` field:
either it decodes to JSON and yields `body.spec.data.hash.value`
(with `''` as the default for missing nested keys, rekor_client.py
lines 95-102), or decoding raises. -/
inductive RekorBody
  | parsed (entryHash : List Char)
  | malformed
deriving Repr, DecidableEq

/-- One value of the JSON dict returned by a Rekor entry lookup; `body`
is `None` when the `body` key is absent or falsy. -/
structure RekorEntry where
  body : Option RekorBody
deriving Repr, DecidableEq

/-- Outcome of `get_entry` / `get_entry_by_log_index`: either the list
of values of the returned JSON dict, or a raised `RekorError`
(timeout or transport failure, rekor_client.py lines 32-35, 45-48). -/
inductive RekorFetchResult
  | ok (entries : List RekorEntry)
  | raised
deriving Repr, DecidableEq

/-- The Rekor HTTP collaborator: entry lookup by UUID and by log
index. -/
structure RekorEnv where
  getEntry : String → RekorFetchResult
  getEntryByLogIndex : String → RekorFetchResult

/-- The distinct `RekorError` raises of `verify_entry`
(rekor_client.py lines 84-118); `hashMismatch` carries the expected
and the actual value exactly as the message at lines 111-113 does. -/
inductive RekorErr
  | hashMismatch (expected actual : List Char)
  | notFound
  | bodyMissing
  | parseFailed
  | fetchFailed
deriving Repr, DecidableEq

/-- RekorClient.verify_entry (rekor_client.py lines 71-118): dispatch on
`entry_id.isdigit()`, take the first value of the returned dict,
decode its body, read the recorded hash, strip the "sha256:" tag from
the expected digest only, and compare; a mismatch raises a
`RekorError` carrying both the (stripped) expected and the actual
value.  The Python return type is `bool`, modelled as
`Except RekorErr Bool`. -/
def verify_entry (re : RekorEnv) (entry_id : String) (expected_sha256 : List Char) :
    Except RekorErr Bool :=
  match (if pyIsdigit entry_id then re.getEntryByLogIndex entry_id
         else re.getEntry entry_id) with
  | RekorFetchResult.raised => Except.error RekorErr.fetchFailed
  | RekorFetchResult.ok [] => Except.error RekorErr.notFound
  | RekorFetchResult.ok (e :: _) =>
      match e.body with
      | none => Except.error RekorErr.bodyMissing
      | some RekorBody.malformed => Except.error RekorErr.parseFailed
      | some (RekorBody.parsed entry_hash) =>
          let expected := normalizeDigest expected_sha256
          if entry_hash == expected then Except.ok true
          else Except.error (RekorErr.hashMismatch expected entry_hash)

/-- One DynamoDB ledger record as read by `verify_from_ledger`
(core.py lines 315-331): `status` is a required attribute (written by
`record_ledger`); the others are read with `.get`. -/
structure LedgerItem where
  status : String
  digest : Option (List Char)
  timestamp : Option String
  details : Option String
  rekor_entry_id : Option String
deriving Repr, DecidableEq

/-- The result dict of `verify_from_ledger` (core.py lines 319-351).
Fields model the dict keys; `none` models an absent key. -/
structure LedgerVerifyResult where
  verified : Bool
  digest : Option (List Char)
  timestamp : Option String
  details : Option String
  verification_method : Option String
  rekor_verified : Option Bool
  rekor_entry_id : Option String
  rekor_error : Bool
  status_note : Option String
deriving Repr, DecidableEq

/-- Per-step outcomes appended to the `details` list of
`verify_artifact_comprehensive` (core.py lines 374, 400, 404, 447,
451, 468). -/
inductive Detail
  | ledgerPassed
  | ledgerFailed
  | checksumPassed
  | checksumFailed
  | cosignWarn
  | verifyError
deriving Repr, DecidableEq

/-- The environment of a verification call: configuration plus every
external collaborator the engine touches.  `getItem` returning
`Except.error` models a DynamoDB `ClientError`; `s3Object` returning
`none` models a download `ClientError`; `sha256Fn` is the hashlib
SHA-256 hexdigest of a byte string; `cosignRun` is the exit status of
`cosign verify-blob` on the (artifact, signature, certificate) byte
triple, with `Except.error` modelling a raised exception. -/
structure VerifyEnv where
  bucket : String
  getItem : String → Except Unit (Option LedgerItem)
  rekor : RekorEnv
  s3Object : String → Option (List Nat)
  sha256Fn : List Nat → List Char
  cosignRun : List Nat → List Nat → List Nat → Except Unit Int

/-- The object key the ledger is queried at (core.py line 312). -/
def ledgerKey (env : VerifyEnv) (name : String) : String :=
  "s3://" ++ env.bucket ++ "/" ++ name

/-- SalsaGCore.verify_from_ledger (core.py lines 307-355).  Returns the
result dict (or the `RuntimeError` raised on a DynamoDB
`ClientError`, modelled as `Except.error`) together with the list of
entry ids passed to `RekorClient.verify_entry` during the call. -/
def verify_from_ledger (env : VerifyEnv) (name : String) :
    Except Unit LedgerVerifyResult × List String :=
  match env.getItem (ledgerKey env name) with
  | Except.error _ => (Except.error (), [])
  | Except.ok none =>
      (Except.ok { verified := false
                   digest := none
                   timestamp := none
                   details := none
                   verification_method := none
                   rekor_verified := none
                   rekor_entry_id := none
                   rekor_error := false
                   status_note := some "Not found in ledger" }, [])
  | Except.ok (some item) =>
      let base : LedgerVerifyResult :=
        { verified := item.status == "verified"
          digest := item.digest
          timestamp := item.timestamp
          details := item.details
          verification_method := some "ledger"
          rekor_verified := none
          rekor_entry_id := none
          rekor_error := false
          status_note := none }
      if pyTruthyStr item.rekor_entry_id then
        let rid := item.rekor_entry_id.getD ""
        let expected := item.digest.getD []
        match verify_entry env.rekor rid expected with
        | Except.ok rv =>
            let r1 := { base with
                        rekor_verified := some rv
                        rekor_entry_id := some rid
                        verification_method := some "rekor" }
            if !rv then
              (Except.ok { r1 with
                           verified := false
                           details := some "Rekor verification failed" }, [rid])
            else (Except.ok r1, [rid])
        | Except.error _ =>
            (Except.ok { base with
                         rekor_verified := some false
                         rekor_error := true }, [rid])
      else (Except.ok base, [])

/-- SalsaGCore.verify_cosign_signature (core.py lines 258-305), as a
function of the local signature and certificate file states
(`none` = the file does not exist, `some n` = it exists with size
`n`) and of the `cosign verify-blob` run outcome. -/
def verify_cosign_signature (sigFile certFile : Option Nat)
    (run : Except Unit Int) : Bool :=
  match sigFile with
  | none => true
  | some sz =>
      if sz == 0 then true
      else
        match certFile with
        | none => true
        | some cz =>
            if cz == 0 then true
            else
              match run with
              | Except.ok code => code == 0
              | Except.error _ => false

/-- Outcome of the checksum step (core.py lines 377-404): `outcome` is
`none` when the artifact download raises (the exception propagates
to the outer handler at line 466), otherwise the computed
`checksum_verified` flag and the detail entries appended; `downloads`
lists the attempted S3 download keys. -/
structure ChecksumStepOut where
  outcome : Option (Bool × List Detail)
  downloads : List String
deriving Repr, DecidableEq

/-- Checksum re-verification step of `verify_artifact_comprehensive`
(core.py lines 376-404): only entered when the ledger result carries
a truthy digest; downloads the artifact, recomputes the SHA-256 of
the downloaded bytes, strips the "sha256:" tag from the stored
digest only (lines 394-396) and compares for exact equality. -/
def checksumStep (env : VerifyEnv) (name : String) (dig : Option (List Char)) :
    ChecksumStepOut :=
  if optListTruthy dig then
    match env.s3Object name with
    | none => ⟨none, [name]⟩
    | some bytes =>
        let calculated := env.sha256Fn bytes
        let stored := normalizeDigest (dig.getD [])
        if calculated == stored then ⟨some (true, [Detail.checksumPassed]), [name]⟩
        else ⟨some (false, [Detail.checksumFailed]), [name]⟩
  else ⟨some (false, []), []⟩

/-- Outcome of the cosign step: the `cosign_verified` flag, the
attempted S3 download keys, how many times the external verifier
process was invoked, and the detail entries appended. -/
structure CosignStepOut where
  cosign_verified : Bool
  downloads : List String
  verifierRuns : Nat
  details : List Detail
deriving Repr, DecidableEq

/-- Signature re-verification step of `verify_artifact_comprehensive`
(core.py lines 406-448).  The signature and certificate S3 keys are
derived from the artifact name by appending ".sig" / ".pem" (the
effect of `Path.with_suffix(suffix + ext)` at lines 408-412).  A
failed artifact download is caught at line 446 (`cosign_verified`
becomes `true` with a warning detail); a failed signature or
certificate download is a `ClientError` caught at line 442
(`cosign_verified` becomes `true`: keyless signing); with all three
downloaded, `verify_cosign_signature` decides, and the external
verifier actually runs only when both files are non-empty. -/
def cosignStep (env : VerifyEnv) (name : String) : CosignStepOut :=
  let sigKey := name ++ ".sig"
  let certKey := name ++ ".pem"
  match env.s3Object name with
  | none => ⟨true, [name], 0, [Detail.cosignWarn]⟩
  | some aBytes =>
      match env.s3Object sigKey with
      | none => ⟨true, [name, sigKey], 0, []⟩
      | some sBytes =>
          match env.s3Object certKey with
          | none => ⟨true, [name, sigKey, certKey], 0, []⟩
          | some cBytes =>
              ⟨verify_cosign_signature (some sBytes.length) (some cBytes.length)
                 (env.cosignRun aBytes sBytes cBytes),
               [name, sigKey, certKey],
               if sBytes.length == 0 || cBytes.length == 0 then 0 else 1, []⟩

/-- The result dict of `verify_artifact_comprehensive` (core.py lines
360-366), all four booleans initialised to `False`. -/
structure VerificationResults where
  ledger_verified : Bool
  checksum_verified : Bool
  cosign_verified : Bool
  overall_verified : Bool
  details : List Detail
deriving Repr, DecidableEq

/-- Observable side effects of one comprehensive verification call: the
entry ids sent to the Rekor client, the attempted S3 downloads, and
the number of external cosign-verifier invocations. -/
structure EffectTrace where
  rekorIds : List String
  downloads : List String
  verifierRuns : Nat
deriving Repr, DecidableEq

/-- SalsaGCore.verify_artifact_comprehensive (core.py lines 357-469).
Step 1 gates steps 2-4; a ledger `RuntimeError` or an exception
inside the checksum step reaches the outer handler at line 466,
which returns the results accumulated so far (the aggregation at
lines 454-458 is then never executed, so `overall_verified` keeps
its default `False`). -/
def verify_artifact_comprehensive (env : VerifyEnv) (name : String) :
    VerificationResults × EffectTrace :=
  match verify_from_ledger env name with
  | (Except.error _, rids) =>
      (⟨false, false, false, false, [Detail.verifyError]⟩, ⟨rids, [], 0⟩)
  | (Except.ok lr, rids) =>
      if lr.verified then
        match checksumStep env name lr.digest with
        | ⟨none, dls⟩ =>
            (⟨true, false, false, false, [Detail.ledgerPassed, Detail.verifyError]⟩,
             ⟨rids, dls, 0⟩)
        | ⟨some (ck, dmsg), dls⟩ =>
            let c := cosignStep env name
            (⟨true, ck, c.cosign_verified, true && ck && c.cosign_verified,
              Detail.ledgerPassed :: dmsg ++ c.details⟩,
             ⟨rids, dls ++ c.downloads, c.verifierRuns⟩)
      else
        (⟨false, false, false, false, [Detail.ledgerFailed]⟩, ⟨rids, [], 0⟩)

/-- State of one evidence file on disk: not created yet, created empty
(`touch` on a fresh path), or populated with real signer output. -/
inductive FileState
  | absent
  | empty
  | written
deriving Repr, DecidableEq

/-- Effect of `Path.touch()`: creates the file empty when absent,
otherwise leaves the existing content alone. -/
def touch : FileState → FileState
  | FileState.absent => FileState.empty
  | s => s

/-- Environment of a signing call: the `skip_signing` configuration
flag, the outcome of the `cosign sign-blob` subprocess (`Except.error`
models any raise: non-zero exit via `check=True`, timeout, or a
spawn failure; a failed signer is modelled as writing no output
files), and the two identifier-resolution collaborators
(`extract_rekor_uuid_from_bundle` and `get_latest_entry_for_hash`,
both of which catch their own errors and return `None`). -/
structure SignEnv where
  skip_signing : Bool
  signerRun : Except Unit Unit
  bundleUuid : Option String
  searchUuid : Option String

/-- Result of `sign_artifact`: the state of the three evidence role
files (which start absent: the paths at core.py lines 143-147 are
allocated, not created), the returned Rekor identifier, and whether
the external signer subprocess was invoked at all. -/
structure SignOutcome where
  signature : FileState
  certificate : FileState
  attestation : FileState
  rekor_uuid : Option String
  signerInvoked : Bool
deriving Repr, DecidableEq

/-- SalsaGCore.sign_artifact (core.py lines 140-189): skip-signing or a
dry run touches the three placeholders and returns `None`
immediately; otherwise the signer runs, and on success the signature
and certificate are populated, the attestation is touched, and the
identifier is resolved from the bundle first (Python truthiness) and
by hash search second; on any raise the exception is swallowed, the
three files are touched, and no identifier is returned. -/
def sign_artifact (env : SignEnv) (dry_run : Bool) : SignOutcome :=
  if env.skip_signing || dry_run then
    { signature := touch FileState.absent
      certificate := touch FileState.absent
      attestation := touch FileState.absent
      rekor_uuid := none
      signerInvoked := false }
  else
    match env.signerRun with
    | Except.ok _ =>
        { signature := FileState.written
          certificate := FileState.written
          attestation := touch FileState.absent
          rekor_uuid := if pyTruthyStr env.bundleUuid then env.bundleUuid
                        else env.searchUuid
          signerInvoked := true }
    | Except.error _ =>
        { signature := touch FileState.absent
          certificate := touch FileState.absent
          attestation := touch FileState.absent
          rekor_uuid := none
          signerInvoked := true }

/-- Rekor collaborator whose every lookup raises (network failure). -/
def rekorRaise : RekorEnv :=
  ⟨fun _ => RekorFetchResult.raised, fun _ => RekorFetchResult.raised⟩

/-- Rekor collaborator whose UUID lookups return one entry whose body
records the bare hash "ab". -/
def rekorPlain : RekorEnv :=
  ⟨fun _ => RekorFetchResult.ok [⟨some (RekorBody.parsed ("ab".data))⟩],
   fun _ => RekorFetchResult.raised⟩

/-- Rekor collaborator whose UUID lookups return one entry whose body
records the tagged hash "sha256:ab". -/
def rekorTagged : RekorEnv :=
  ⟨fun _ => RekorFetchResult.ok [⟨some (RekorBody.parsed ("sha256:ab".data))⟩],
   fun _ => RekorFetchResult.raised⟩

/-- Rekor collaborator whose log-index lookups return one entry whose
body records the hash "xx" (disagreeing with every other digest). -/
def rekorMismatch : RekorEnv :=
  ⟨fun _ => RekorFetchResult.raised,
   fun _ => RekorFetchResult.ok [⟨some (RekorBody.parsed ("xx".data))⟩]⟩

/-- Ledger record with status "verified", digest "ab" and no Rekor
identifier. -/
def itemPlain : LedgerItem := ⟨"verified", some ("ab".data), none, none, none⟩

/-- Ledger record with status "verified", digest "ab" and Rekor entry
id "1". -/
def itemWithRekor : LedgerItem := ⟨"verified", some ("ab".data), none, none, some "1"⟩

/-- Ledger record with a non-"verified" status that still carries a
Rekor entry id. -/
def itemPending : LedgerItem := ⟨"pending", some ("ab".data), none, none, some "1"⟩

/-- Environment whose ledger returns a non-"verified" record carrying a
Rekor entry id. -/
def envC2x : VerifyEnv :=
  ⟨"b", fun _ => Except.ok (some itemPending), rekorRaise, fun _ => none,
   fun _ => "ab".data, fun _ _ _ => Except.error ()⟩

/-- Environment realizing the advisory-corroboration scenario: verified
ledger record with Rekor id "1", a Rekor log entry whose hash
disagrees, artifact bytes present whose digest matches the record,
and no signature objects in the blob store. -/
def envC3w : VerifyEnv :=
  ⟨"b", fun _ => Except.ok (some itemWithRekor), rekorMismatch,
   fun k => if k = "a" then some [1] else none,
   fun _ => "ab".data, fun _ _ _ => Except.ok 0⟩

/-- Environment with a verified record, matching artifact bytes and no
signature objects. -/
def envC4w : VerifyEnv :=
  ⟨"b", fun _ => Except.ok (some itemPlain), rekorRaise,
   fun k => if k = "a" then some [1] else none,
   fun _ => "ab".data, fun _ _ _ => Except.ok 0⟩

/-- Environment with a verified record and artifact, signature and
certificate objects all present and non-empty, whose external
verifier exits with status 0. -/
def envC6w : VerifyEnv :=
  ⟨"b", fun _ => Except.ok (some itemPlain), rekorRaise,
   fun k => if k = "a" then some [1]
            else if k = "a.sig" then some [2]
            else if k = "a.pem" then some [3] else none,
   fun _ => "ab".data, fun _ _ _ => Except.ok 0⟩

/-- Environment with a verified record and an empty blob store. -/
def envC10w : VerifyEnv :=
  ⟨"b", fun _ => Except.ok (some itemPlain), rekorRaise, fun _ => none,
   fun _ => [], fun _ _ _ => Except.ok 0⟩

/-- Signing environment where signing is enabled but the external
signer raises. -/
def envSignFail : SignEnv := ⟨false, Except.error (), none, none⟩

/-- Signing environment where skip-signing is configured. -/
def envSignSkip : SignEnv := ⟨true, Except.ok (), some "u", some "v"⟩

/-! Helper lemmas. -/

/-- Stripping the tag from a tagged string recovers the suffix. -/
theorem normalizeDigest_tag_append (t : List Char) :
    normalizeDigest (sha256Tag ++ t) = t := by
  unfold normalizeDigest
  rw [if_pos]
  · have hlen : sha256Tag.length = 7 := rfl
    rw [← hlen, List.drop_left]
  · simp

/-- A string that does not start with the tag is left unchanged. -/
theorem normalizeDigest_of_no_tag (t : List Char)
    (ht : sha256Tag.isPrefixOf t = false) :
    normalizeDigest t = t := by
  unfold normalizeDigest
  rw [ht]
  simp

/-- A hex string cannot start with the "sha256:" tag ('s' is not a hex
digit). -/
theorem IsHexString.no_tag (d : List Char) (hd : IsHexString d) :
    sha256Tag.isPrefixOf d = false := by
  cases hq : sha256Tag.isPrefixOf d with
  | false => rfl
  | true =>
      exfalso
      have hpre : sha256Tag <+: d := by simpa using hq
      obtain ⟨t, ht⟩ := hpre
      have hs : 's' ∈ d := by
        rw [← ht]
        exact List.mem_append_left t (by decide)
      have := hd 's' hs
      simp [isHexChar] at this

/-- Normalization fixes a hex string. -/
theorem IsHexString.normalize_eq (d : List Char) (hd : IsHexString d) :
    normalizeDigest d = d :=
  normalizeDigest_of_no_tag d (IsHexString.no_tag d hd)

/-- C9 counterexample input: a doubly tagged string. -/
theorem c9_normalize_not_idempotent :
    normalizeDigest (normalizeDigest ("sha256:sha256:ab".data)) ≠
      normalizeDigest ("sha256:sha256:ab".data) := by decide

/-- C9 (amended): digest-tag stripping is idempotent on every string
that does not start with a doubled "sha256:sha256:" tag, and for
every string h not itself starting with "sha256:",
normalize("sha256:"+h) = normalize(h) = h. -/
theorem c9_normalize_idempotent_amended :
    (∀ d : List Char, (sha256Tag ++ sha256Tag).isPrefixOf d = false →
      normalizeDigest (normalizeDigest d) = normalizeDigest d) ∧
    (∀ t : List Char, sha256Tag.isPrefixOf t = false →
      normalizeDigest (sha256Tag ++ t) = normalizeDigest t ∧ normalizeDigest t = t) := by
  constructor
  · intro d hd
    cases hp : sha256Tag.isPrefixOf d with
    | false => rw [normalizeDigest_of_no_tag d hp, normalizeDigest_of_no_tag d hp]
    | true =>
        have hpre : sha256Tag <+: d := by simpa using hp
        obtain ⟨t, rfl⟩ := hpre
        have htag : sha256Tag.isPrefixOf t = false := by
          cases hq : sha256Tag.isPrefixOf t with
          | false => rfl
          | true =>
              exfalso
              have hqre : sha256Tag <+: t := by simpa using hq
              obtain ⟨s, rfl⟩ := hqre
              have hdouble :
                  (sha256Tag ++ sha256Tag).isPrefixOf
                    (sha256Tag ++ (sha256Tag ++ s)) = true := by
                simp only [← List.append_assoc]
                simp
              rw [hd] at hdouble
              exact Bool.noConfusion hdouble
        rw [normalizeDigest_tag_append t, normalizeDigest_of_no_tag t htag]
  · intro t ht
    rw [normalizeDigest_tag_append t, normalizeDigest_of_no_tag t ht]
    exact ⟨rfl, rfl⟩

/-- C9 witness: the amended theorem applied at the concrete strings
"sha256:ab" and "ab". -/
theorem c9_normalize_witness :
    normalizeDigest (normalizeDigest ("sha256:ab".data)) =
      normalizeDigest ("sha256:ab".data) ∧
    normalizeDigest (sha256Tag ++ "ab".data) = normalizeDigest ("ab".data) ∧
    normalizeDigest ("ab".data) = "ab".data :=
  ⟨c9_normalize_idempotent_amended.1 ("sha256:ab".data) (by decide),
   (c9_normalize_idempotent_amended.2 ("ab".data) (by decide)).1,
   (c9_normalize_idempotent_amended.2 ("ab".data) (by decide)).2⟩

/-- C5 counterexample: the entry records "sha256:ab" and the expected
digest is "ab"; both normalize to "ab", yet verify_entry raises
HashMismatch instead of succeeding, because the entry-side hash is
compared without normalization. -/
theorem c5_verify_entry_counterexample :
    normalizeDigest ("sha256:ab".data) = normalizeDigest ("ab".data) ∧
    verify_entry rekorTagged "u" ("ab".data) =
      Except.error (RekorErr.hashMismatch ("ab".data) ("sha256:ab".data)) := by
  constructor
  · decide
  · rfl

/-- C5 (amended): verify_entry normalizes only the expected digest
(stripping any "sha256:" tag) and compares the entry's recorded hash
as-is; it returns success exactly when the recorded hash equals the
normalized expected digest, and otherwise fails with a HashMismatch
error carrying the (normalized) expected and the recorded actual
value. -/
theorem c5_verify_entry_amended (re : RekorEnv) (entry_id : String)
    (expected : List Char) (en : RekorEntry) (rest : List RekorEntry)
    (eh : List Char)
    (hf : (if pyIsdigit entry_id then re.getEntryByLogIndex entry_id
           else re.getEntry entry_id) = RekorFetchResult.ok (en :: rest))
    (hb : en.body = some (RekorBody.parsed eh)) :
    (verify_entry re entry_id expected = Except.ok true ↔
      eh = normalizeDigest expected) ∧
    (eh ≠ normalizeDigest expected →
      verify_entry re entry_id expected =
        Except.error (RekorErr.hashMismatch (normalizeDigest expected) eh)) := by
  unfold verify_entry
  rw [hf]
  dsimp only
  rw [hb]
  dsimp only
  by_cases hc : eh = normalizeDigest expected
  · subst hc
    simp
  · constructor
    · rw [if_neg (by simpa using hc)]
      constructor
      · intro h
        exact Except.noConfusion h
      · intro h
        exact absurd h hc
    · intro _
      rw [if_neg (by simpa using hc)]

/-- C5 witness: the amended theorem applied at a concrete entry whose
recorded hash "ab" equals the normalized expected digest. -/
theorem c5_verify_entry_witness :
    (verify_entry rekorPlain "u" ("ab".data) = Except.ok true ↔
      "ab".data = normalizeDigest ("ab".data)) ∧
    ("ab".data ≠ normalizeDigest ("ab".data) →
      verify_entry rekorPlain "u" ("ab".data) =
        Except.error (RekorErr.hashMismatch (normalizeDigest ("ab".data)) ("ab".data))) :=
  c5_verify_entry_amended rekorPlain "u" ("ab".data)
    ⟨some (RekorBody.parsed ("ab".data))⟩ [] ("ab".data) rfl rfl

/-- C7: when signing is enabled and the external signer raises
(non-zero exit, timeout or malformed invocation), the error is
swallowed: the call returns, the three evidence role files exist as
zero-byte placeholders, and no transparency-log identifier is
produced. -/
theorem c7_signer_failure_swallowed (env : SignEnv)
    (hskip : env.skip_signing = false)
    (hrun : env.signerRun = Except.error ()) :
    sign_artifact env false =
      { signature := FileState.empty
        certificate := FileState.empty
        attestation := FileState.empty
        rekor_uuid := none
        signerInvoked := true } := by
  unfold sign_artifact
  rw [hskip, hrun]
  rfl

/-- C7 witness: the theorem applied to the concrete failing-signer
environment. -/
theorem c7_signer_failure_witness :
    sign_artifact envSignFail false =
      { signature := FileState.empty
        certificate := FileState.empty
        attestation := FileState.empty
        rekor_uuid := none
        signerInvoked := true } :=
  c7_signer_failure_swallowed envSignFail rfl rfl

/-- C8: when skip-signing is configured or a dry run is requested,
sign_artifact returns immediately with all three evidence role files
created as zero-byte placeholders, no transparency-log identifier,
and without invoking the external signer. -/
theorem c8_skip_signing (env : SignEnv) (dry_run : Bool)
    (hsk : env.skip_signing = true ∨ dry_run = true) :
    sign_artifact env dry_run =
      { signature := FileState.empty
        certificate := FileState.empty
        attestation := FileState.empty
        rekor_uuid := none
        signerInvoked := false } := by
  unfold sign_artifact
  rcases hsk with h | h <;> rw [h] <;> simp <;> rfl

/-- C8 witness: the theorem applied to the concrete skip-signing
environment. -/
theorem c8_skip_signing_witness :
    sign_artifact envSignSkip false =
      { signature := FileState.empty
        certificate := FileState.empty
        attestation := FileState.empty
        rekor_uuid := none
        signerInvoked := false } :=
  c8_skip_signing envSignSkip false (Or.inl rfl)

/-- verify_entry only ever returns True: every successful return is
`Except.ok true`. -/
theorem verify_entry_ok_true (re : RekorEnv) (entry_id : String)
    (expected : List Char) (b : Bool)
    (h : verify_entry re entry_id expected = Except.ok b) : b = true := by
  unfold verify_entry at h
  split at h
  · exact Except.noConfusion h
  · exact Except.noConfusion h
  · split at h
    · exact Except.noConfusion h
    · exact Except.noConfusion h
    · dsimp only at h
      split at h
      · injection h with h2
        exact h2.symm
      · exact Except.noConfusion h

/-- Shape of the verify_from_ledger result when the ledger holds a
record: the call returns a dict whose 'verified' field equals the
record's status test and whose 'digest' field is the record's
digest, whatever the transparency-log collaborator does. -/
theorem verify_from_ledger_item (env : VerifyEnv) (name : String)
    (item : LedgerItem)
    (h : env.getItem (ledgerKey env name) = Except.ok (some item)) :
    ∃ lr rids, verify_from_ledger env name = (Except.ok lr, rids) ∧
      lr.verified = (item.status == "verified") ∧ lr.digest = item.digest ∧
      lr.details = item.details := by
  unfold verify_from_ledger
  rw [h]
  dsimp only
  by_cases ht : pyTruthyStr item.rekor_entry_id
  · rw [if_pos ht]
    rcases hv : verify_entry env.rekor (item.rekor_entry_id.getD "")
        (item.digest.getD []) with e | rv
    · exact ⟨_, _, rfl, rfl, rfl, rfl⟩
    · have hrv := verify_entry_ok_true _ _ _ _ hv
      subst hrv
      exact ⟨_, _, rfl, rfl, rfl, rfl⟩
  · rw [if_neg ht]
    exact ⟨_, _, rfl, rfl, rfl, rfl⟩

/-- Shape of the comprehensive verdict when the ledger step passes:
steps 2-4 run and the aggregation conjunction is computed. -/
theorem comp_of_ledger_pass (env : VerifyEnv) (name : String)
    (lr : LedgerVerifyResult) (rids : List String)
    (h : verify_from_ledger env name = (Except.ok lr, rids))
    (hv : lr.verified = true) :
    verify_artifact_comprehensive env name =
      match checksumStep env name lr.digest with
      | ⟨none, dls⟩ =>
          (⟨true, false, false, false, [Detail.ledgerPassed, Detail.verifyError]⟩,
           ⟨rids, dls, 0⟩)
      | ⟨some (ck, dmsg), dls⟩ =>
          (⟨true, ck, (cosignStep env name).cosign_verified,
            true && ck && (cosignStep env name).cosign_verified,
            Detail.ledgerPassed :: dmsg ++ (cosignStep env name).details⟩,
           ⟨rids, dls ++ (cosignStep env name).downloads,
            (cosignStep env name).verifierRuns⟩) := by
  unfold verify_artifact_comprehensive
  rw [h]
  dsimp only
  rw [hv]
  simp only [if_pos]

/-- The four booleans of a comprehensive verdict as a function of the
ledger record and of the checksum and cosign steps alone; in
particular the transparency-log collaborator does not occur on the
right-hand side. -/
theorem comp_booleans_formula (env : VerifyEnv) (name : String) :
    ((verify_artifact_comprehensive env name).1.ledger_verified,
     (verify_artifact_comprehensive env name).1.checksum_verified,
     (verify_artifact_comprehensive env name).1.cosign_verified,
     (verify_artifact_comprehensive env name).1.overall_verified) =
      (match env.getItem (ledgerKey env name) with
       | Except.error _ => (false, false, false, false)
       | Except.ok none => (false, false, false, false)
       | Except.ok (some item) =>
           if (item.status == "verified") = true then
             match checksumStep env name item.digest with
             | ⟨none, _⟩ => (true, false, false, false)
             | ⟨some (ck, _), _⟩ =>
                 (true, ck, (cosignStep env name).cosign_verified,
                  true && ck && (cosignStep env name).cosign_verified)
           else (false, false, false, false)) := by
  rcases hg : env.getItem (ledgerKey env name) with u | oit
  · have hvfl : verify_from_ledger env name = (Except.error (), []) := by
      unfold verify_from_ledger
      rw [hg]
    unfold verify_artifact_comprehensive
    rw [hvfl]
  · rcases oit with _ | item
    · have hvfl : verify_from_ledger env name =
          (Except.ok { verified := false
                       digest := none
                       timestamp := none
                       details := none
                       verification_method := none
                       rekor_verified := none
                       rekor_entry_id := none
                       rekor_error := false
                       status_note := some "Not found in ledger" }, []) := by
        unfold verify_from_ledger
        rw [hg]
      unfold verify_artifact_comprehensive
      rw [hvfl]
      rfl
    · obtain ⟨lr, rids, hvfl, hver, hdig, hdet⟩ := verify_from_ledger_item env name item hg
      unfold verify_artifact_comprehensive
      rw [hvfl]
      dsimp only
      rw [hver, hdig]
      by_cases hs : (item.status == "verified") = true
      · rw [if_pos hs, if_pos hs]
        rcases checksumStep env name item.digest with ⟨o, dls⟩
        rcases o with _ | ⟨ck, dmsg⟩
        · rfl
        · rfl
      · rw [if_neg hs, if_neg hs]

/-- C1: in every comprehensive verdict, overall_verified equals the
conjunction of ledger_verified, checksum_verified and
cosign_verified; moreover all four booleans are unchanged when the
transparency-log collaborator is replaced by any other, so the
transparency-log corroboration outcome does not participate in the
aggregation. -/
theorem c1_overall_aggregation :
    (∀ (env : VerifyEnv) (name : String),
      (verify_artifact_comprehensive env name).1.overall_verified =
        ((verify_artifact_comprehensive env name).1.ledger_verified &&
         (verify_artifact_comprehensive env name).1.checksum_verified &&
         (verify_artifact_comprehensive env name).1.cosign_verified)) ∧
    (∀ (env : VerifyEnv) (re : RekorEnv) (name : String),
      ((verify_artifact_comprehensive { env with rekor := re } name).1.ledger_verified =
        (verify_artifact_comprehensive env name).1.ledger_verified) ∧
      ((verify_artifact_comprehensive { env with rekor := re } name).1.checksum_verified =
        (verify_artifact_comprehensive env name).1.checksum_verified) ∧
      ((verify_artifact_comprehensive { env with rekor := re } name).1.cosign_verified =
        (verify_artifact_comprehensive env name).1.cosign_verified) ∧
      ((verify_artifact_comprehensive { env with rekor := re } name).1.overall_verified =
        (verify_artifact_comprehensive env name).1.overall_verified)) := by
  constructor
  · intro env name
    have h := comp_booleans_formula env name
    rcases hg : env.getItem (ledgerKey env name) with u | oit
    · rw [hg] at h
      simp only [Prod.mk.injEq] at h
      rw [h.1, h.2.1, h.2.2.1, h.2.2.2]
      rfl
    · rcases oit with _ | item
      · rw [hg] at h
        simp only [Prod.mk.injEq] at h
        rw [h.1, h.2.1, h.2.2.1, h.2.2.2]
        rfl
      · rw [hg] at h
        dsimp only at h
        by_cases hs : (item.status == "verified") = true
        · rw [if_pos hs] at h
          rcases hcs : checksumStep env name item.digest with ⟨o, dls⟩
          rw [hcs] at h
          rcases o with _ | ⟨ck, dmsg⟩
          · dsimp only at h
            simp only [Prod.mk.injEq] at h
            rw [h.1, h.2.1, h.2.2.1, h.2.2.2]
            rfl
          · dsimp only at h
            simp only [Prod.mk.injEq] at h
            rw [h.1, h.2.1, h.2.2.1, h.2.2.2]
        · rw [if_neg hs] at h
          simp only [Prod.mk.injEq] at h
          rw [h.1, h.2.1, h.2.2.1, h.2.2.2]
          rfl
  · intro env re name
    have hgi : ({ env with rekor := re } : VerifyEnv).getItem = env.getItem := rfl
    have hkey : ledgerKey { env with rekor := re } = ledgerKey env := rfl
    have hcs : checksumStep { env with rekor := re } = checksumStep env := rfl
    have hco : cosignStep { env with rekor := re } = cosignStep env := rfl
    have h1 := comp_booleans_formula { env with rekor := re } name
    have h2 := comp_booleans_formula env name
    rw [hgi, hkey, hcs, hco] at h1
    have h3 := h1.trans h2.symm
    simp only [Prod.mk.injEq] at h3
    exact ⟨h3.1, h3.2.1, h3.2.2.1, h3.2.2.2⟩

/-- C2 counterexample: with a ledger record present whose status is
"pending" (not "verified") but which carries a Rekor entry id, the
transparency-log corroboration of step 2 is still attempted (the id
is passed to the Rekor client), so steps 2-4 are not all skipped. -/
theorem c2_rekor_still_attempted :
    envC2x.getItem (ledgerKey envC2x "a") = Except.ok (some itemPending) ∧
    itemPending.status ≠ "verified" ∧
    (verify_artifact_comprehensive envC2x "a").2.rekorIds = ["1"] :=
  ⟨rfl, by decide, rfl⟩

/-- C2 (amended): when the ledger record is absent or its status is not
"verified", the verdict has ledger_verified = false, steps 3-4
(checksum and signature re-verification) are not attempted (no S3
download and no verifier run happen, and checksum_verified and
cosign_verified keep their default false), and overall_verified is
false; when the record is absent, the transparency-log corroboration
of step 2 is not attempted either.  (When a non-"verified" record
carries a transparency-log identifier, step 2 is still attempted,
though its outcome cannot change the verdict.) -/
theorem c2_ledger_gate_amended (env : VerifyEnv) (name : String)
    (hfail : env.getItem (ledgerKey env name) = Except.ok none ∨
      ∃ item, env.getItem (ledgerKey env name) = Except.ok (some item) ∧
        item.status ≠ "verified") :
    (verify_artifact_comprehensive env name).1.ledger_verified = false ∧
    (verify_artifact_comprehensive env name).1.checksum_verified = false ∧
    (verify_artifact_comprehensive env name).1.cosign_verified = false ∧
    (verify_artifact_comprehensive env name).1.overall_verified = false ∧
    (verify_artifact_comprehensive env name).2.downloads = [] ∧
    (verify_artifact_comprehensive env name).2.verifierRuns = 0 ∧
    (env.getItem (ledgerKey env name) = Except.ok none →
      (verify_artifact_comprehensive env name).2.rekorIds = []) := by
  rcases hfail with hget | ⟨item, hget, hne⟩
  · have hvfl : verify_from_ledger env name =
        (Except.ok { verified := false
                     digest := none
                     timestamp := none
                     details := none
                     verification_method := none
                     rekor_verified := none
                     rekor_entry_id := none
                     rekor_error := false
                     status_note := some "Not found in ledger" }, []) := by
      unfold verify_from_ledger
      rw [hget]
    have hcomp : verify_artifact_comprehensive env name =
        (⟨false, false, false, false, [Detail.ledgerFailed]⟩, ⟨[], [], 0⟩) := by
      unfold verify_artifact_comprehensive
      rw [hvfl]
      rfl
    rw [hcomp]
    exact ⟨rfl, rfl, rfl, rfl, rfl, rfl, fun _ => rfl⟩
  · obtain ⟨lr, rids, hvfl, hver, hdig, hdet⟩ :=
      verify_from_ledger_item env name item hget
    have hbf : (item.status == "verified") = false := by
      cases hb : item.status == "verified" with
      | false => rfl
      | true => exact absurd (by simpa using hb) hne
    have hcomp : verify_artifact_comprehensive env name =
        (⟨false, false, false, false, [Detail.ledgerFailed]⟩, ⟨rids, [], 0⟩) := by
      unfold verify_artifact_comprehensive
      rw [hvfl]
      dsimp only
      rw [hver, hbf]
      rfl
    rw [hcomp]
    refine ⟨rfl, rfl, rfl, rfl, rfl, rfl, fun hnone => ?_⟩
    rw [hget] at hnone
    exact absurd (Except.ok.inj hnone) (by simp)

/-- C2 witness: the amended theorem applied to the concrete environment
with a "pending" record. -/
theorem c2_ledger_gate_witness :
    (verify_artifact_comprehensive envC2x "a").1.ledger_verified = false ∧
    (verify_artifact_comprehensive envC2x "a").1.checksum_verified = false ∧
    (verify_artifact_comprehensive envC2x "a").1.cosign_verified = false ∧
    (verify_artifact_comprehensive envC2x "a").1.overall_verified = false ∧
    (verify_artifact_comprehensive envC2x "a").2.downloads = [] ∧
    (verify_artifact_comprehensive envC2x "a").2.verifierRuns = 0 ∧
    (envC2x.getItem (ledgerKey envC2x "a") = Except.ok none →
      (verify_artifact_comprehensive envC2x "a").2.rekorIds = []) :=
  c2_ledger_gate_amended envC2x "a" (Or.inr ⟨itemPending, rfl, by decide⟩)

/-- C3: when the ledger record exists with status "verified" and
carries a transparency-log identifier, any RekorError raised by
verify_entry (a hash mismatch included) leaves the ledger verdict
true: the result records rekor_verified = false and a rekor_error
warning, the comprehensive ledger_verified flag stays true, and
overall_verified is decided by the checksum and cosign flags
alone, so it can still be true. -/
theorem c3_rekor_error_advisory (env : VerifyEnv) (name : String)
    (item : LedgerItem) (e : RekorErr)
    (hget : env.getItem (ledgerKey env name) = Except.ok (some item))
    (hst : item.status = "verified")
    (hrid : pyTruthyStr item.rekor_entry_id = true)
    (herr : verify_entry env.rekor (item.rekor_entry_id.getD "")
        (item.digest.getD []) = Except.error e) :
    verify_from_ledger env name =
      (Except.ok { verified := true
                   digest := item.digest
                   timestamp := item.timestamp
                   details := item.details
                   verification_method := some "ledger"
                   rekor_verified := some false
                   rekor_entry_id := none
                   rekor_error := true
                   status_note := none }, [item.rekor_entry_id.getD ""]) ∧
    (verify_artifact_comprehensive env name).1.ledger_verified = true ∧
    (verify_artifact_comprehensive env name).1.overall_verified =
      ((verify_artifact_comprehensive env name).1.checksum_verified &&
       (verify_artifact_comprehensive env name).1.cosign_verified) := by
  have hvfl : verify_from_ledger env name =
      (Except.ok { verified := true
                   digest := item.digest
                   timestamp := item.timestamp
                   details := item.details
                   verification_method := some "ledger"
                   rekor_verified := some false
                   rekor_entry_id := none
                   rekor_error := true
                   status_note := none }, [item.rekor_entry_id.getD ""]) := by
    unfold verify_from_ledger
    rw [hget]
    dsimp only
    rw [if_pos hrid, herr]
    rw [hst]
    rfl
  refine ⟨hvfl, ?_, ?_⟩
  · have hc := comp_of_ledger_pass env name _ _ hvfl rfl
    rw [hc]
    rcases checksumStep env name item.digest with ⟨o, dls⟩
    rcases o with _ | ⟨ck, dmsg⟩
    · rfl
    · rfl
  · have hc := comp_of_ledger_pass env name _ _ hvfl rfl
    rw [hc]
    rcases checksumStep env name item.digest with ⟨o, dls⟩
    rcases o with _ | ⟨ck, dmsg⟩
    · rfl
    · dsimp only
      rw [Bool.true_and]

/-- C3 witness: in the concrete scenario with a hash-mismatching Rekor
entry, a matching checksum and no signature objects, the ledger
verdict stays true and the overall verdict is still true. -/
theorem c3_rekor_error_witness :
    (verify_artifact_comprehensive envC3w "a").1.ledger_verified = true ∧
    (verify_artifact_comprehensive envC3w "a").1.overall_verified = true ∧
    (verify_from_ledger envC3w "a").1 =
      Except.ok { verified := true
                  digest := some ("ab".data)
                  timestamp := none
                  details := none
                  verification_method := some "ledger"
                  rekor_verified := some false
                  rekor_entry_id := none
                  rekor_error := true
                  status_note := none } := by
  have h := c3_rekor_error_advisory envC3w "a" itemWithRekor
      (RekorErr.hashMismatch ("ab".data) ("xx".data)) rfl rfl (by decide) rfl
  refine ⟨h.2.1, ?_, by rw [h.1]; rfl⟩
  rw [h.2.2]
  rfl

/-- C4: when the ledger check passes and the record carries a (truthy)
digest, and the artifact downloads successfully, checksum_verified
is exactly the equality of the normalized recomputed SHA-256 of the
downloaded bytes with the normalized stored digest (the code strips
the tag from the stored digest only, but a hexdigest never carries
the tag, so normalizing both is equivalent). -/
theorem c4_checksum_comparison (env : VerifyEnv) (name : String)
    (item : LedgerItem) (bytes : List Nat)
    (hget : env.getItem (ledgerKey env name) = Except.ok (some item))
    (hst : item.status = "verified")
    (hdig : optListTruthy item.digest = true)
    (hobj : env.s3Object name = some bytes)
    (hhex : IsHexString (env.sha256Fn bytes)) :
    (verify_artifact_comprehensive env name).1.checksum_verified =
      (normalizeDigest (env.sha256Fn bytes) ==
       normalizeDigest (item.digest.getD [])) := by
  obtain ⟨lr, rids, hvfl, hver, hd, hdet⟩ :=
    verify_from_ledger_item env name item hget
  have hv : lr.verified = true := by
    rw [hver, hst]
    rfl
  have hc := comp_of_ledger_pass env name lr rids hvfl hv
  rw [hc, hd]
  unfold checksumStep
  rw [if_pos hdig, hobj]
  dsimp only
  by_cases hcmp : (env.sha256Fn bytes == normalizeDigest (item.digest.getD [])) = true
  · rw [if_pos hcmp]
    dsimp only
    rw [IsHexString.normalize_eq _ hhex]
    exact hcmp.symm
  · rw [if_neg hcmp]
    dsimp only
    rw [IsHexString.normalize_eq _ hhex]
    simp only [Bool.not_eq_true] at hcmp
    exact hcmp.symm

/-- C4 witness: the theorem applied to the concrete matching-digest
environment, where the checksum flag evaluates to true. -/
theorem c4_checksum_witness :
    IsHexString (envC4w.sha256Fn [1]) ∧
    (verify_artifact_comprehensive envC4w "a").1.checksum_verified =
      (normalizeDigest (envC4w.sha256Fn [1]) ==
       normalizeDigest (itemPlain.digest.getD [])) :=
  ⟨by unfold IsHexString; decide,
   c4_checksum_comparison envC4w "a" itemPlain [1] rfl rfl (by decide) rfl
     (by unfold IsHexString; decide)⟩

/-- In a comprehensive verification whose ledger check passed and whose
artifact object is present in the blob store, the cosign flag of the
verdict is the cosign step's outcome (the checksum step cannot
abort the call, because the artifact download succeeds). -/
theorem comp_cosign_of_pass (env : VerifyEnv) (name : String)
    (item : LedgerItem) (aBytes : List Nat)
    (hget : env.getItem (ledgerKey env name) = Except.ok (some item))
    (hst : item.status = "verified")
    (hobj : env.s3Object name = some aBytes) :
    (verify_artifact_comprehensive env name).1.cosign_verified =
      (cosignStep env name).cosign_verified := by
  obtain ⟨lr, rids, hvfl, hver, hd, hdet⟩ :=
    verify_from_ledger_item env name item hget
  have hv : lr.verified = true := by
    rw [hver, hst]
    rfl
  have hc := comp_of_ledger_pass env name lr rids hvfl hv
  rw [hc, hd]
  unfold checksumStep
  by_cases hdig : optListTruthy item.digest = true
  · rw [if_pos hdig, hobj]
    dsimp only
    by_cases hcmp : (env.sha256Fn aBytes == normalizeDigest (item.digest.getD [])) = true
    · rw [if_pos hcmp]
    · rw [if_neg hcmp]
  · rw [if_neg hdig]

/-- C6: in the signature step of a comprehensive verification whose
ledger check passed and whose artifact object is present: if the
signature or the certificate object is absent from the blob store,
or either downloaded file is empty, cosign_verified is true; if
both are present and non-empty and the external verifier exits with
a code, cosign_verified is true exactly when that code is zero. -/
theorem c6_cosign_policy (env : VerifyEnv) (name : String)
    (item : LedgerItem) (aBytes : List Nat)
    (hget : env.getItem (ledgerKey env name) = Except.ok (some item))
    (hst : item.status = "verified")
    (hobj : env.s3Object name = some aBytes) :
    (env.s3Object (name ++ ".sig") = none →
      (verify_artifact_comprehensive env name).1.cosign_verified = true) ∧
    (∀ s, env.s3Object (name ++ ".sig") = some s →
      env.s3Object (name ++ ".pem") = none →
      (verify_artifact_comprehensive env name).1.cosign_verified = true) ∧
    (∀ s c, env.s3Object (name ++ ".sig") = some s →
      env.s3Object (name ++ ".pem") = some c →
      (s.length = 0 ∨ c.length = 0) →
      (verify_artifact_comprehensive env name).1.cosign_verified = true) ∧
    (∀ s c code, env.s3Object (name ++ ".sig") = some s →
      env.s3Object (name ++ ".pem") = some c →
      s.length ≠ 0 → c.length ≠ 0 →
      env.cosignRun aBytes s c = Except.ok code →
      (verify_artifact_comprehensive env name).1.cosign_verified = (code == 0)) := by
  have hcv := comp_cosign_of_pass env name item aBytes hget hst hobj
  refine ⟨?_, ?_, ?_, ?_⟩
  · intro hsig
    rw [hcv]
    unfold cosignStep
    dsimp only
    rw [hobj, hsig]
  · intro s hs hcert
    rw [hcv]
    unfold cosignStep
    dsimp only
    rw [hobj, hs, hcert]
  · intro s c hs hc h0
    rw [hcv]
    unfold cosignStep
    dsimp only
    rw [hobj, hs, hc]
    dsimp only
    unfold verify_cosign_signature
    dsimp only
    rcases h0 with h0 | h0
    · rw [if_pos (by simpa using h0)]
    · by_cases hs0 : (s.length == 0) = true
      · rw [if_pos hs0]
      · rw [if_neg hs0]
        rw [if_pos (by simpa using h0)]
  · intro s c code hs hc hns hnc hrun
    rw [hcv]
    unfold cosignStep
    dsimp only
    rw [hobj, hs, hc]
    dsimp only
    unfold verify_cosign_signature
    dsimp only
    rw [if_neg (by simpa using hns)]
    rw [if_neg (by simpa using hnc), hrun]

/-- C6 witness: in the concrete environment with non-empty signature
and certificate objects and a zero-exit verifier, the policy theorem
yields cosign_verified = (0 == 0). -/
theorem c6_cosign_witness :
    (verify_artifact_comprehensive envC6w "a").1.cosign_verified =
      ((0 : Int) == 0) :=
  (c6_cosign_policy envC6w "a" itemPlain [1] rfl rfl rfl).2.2.2 [2] [3] 0
    rfl rfl (by decide) (by decide) rfl

/-- C10: verify_entry can never return False (every non-raising path
returns True), and consequently the 'verified' field returned by
verify_from_ledger for an existing ledger record always equals the
record's own status test, with the record's details preserved - the
branch that would flip 'verified' to False on a False Rekor result
is unreachable. -/
theorem c10_verify_entry_never_false :
    (∀ (re : RekorEnv) (entry_id : String) (expected : List Char),
      verify_entry re entry_id expected ≠ Except.ok false) ∧
    (∀ (env : VerifyEnv) (name : String) (item : LedgerItem),
      env.getItem (ledgerKey env name) = Except.ok (some item) →
      ∃ lr, (verify_from_ledger env name).1 = Except.ok lr ∧
        lr.verified = (item.status == "verified") ∧
        lr.details = item.details) := by
  constructor
  · intro re entry_id expected h
    exact Bool.noConfusion (verify_entry_ok_true re entry_id expected false h)
  · intro env name item hget
    obtain ⟨lr, rids, hvfl, hver, hd, hdet⟩ :=
      verify_from_ledger_item env name item hget
    exact ⟨lr, by rw [hvfl], hver, hdet⟩

/-- C10 witness: the theorem applied to a concrete Rekor collaborator
and to the concrete environment holding a "verified" record. -/
theorem c10_verify_entry_witness :
    (verify_entry rekorRaise "x" [] ≠ Except.ok false) ∧
    (∃ lr, (verify_from_ledger envC10w "a").1 = Except.ok lr ∧
      lr.verified = (itemPlain.status == "verified") ∧
      lr.details = itemPlain.details) :=
  ⟨c10_verify_entry_never_false.1 rekorRaise "x" [],
   c10_verify_entry_never_false.2 envC10w "a" itemPlain rfl⟩
